import Mathlib

/-!
Verification of the Arogya-Swarm dashboard core against its specification.

The development shallowly embeds the two source files:
* `src/frontend/src/lib/api.ts` — the fetch-layer wrappers (`fetchBeds`,
  `fetchStaff`, `fetchRecommendations`, `fetchLatestPrediction`,
  `approveRecommendation`, `rejectRecommendation`, `getCurrentLocation`,
  `fetchCurrentAQI`);
* `src/components/Dashboard.tsx` — the scenario table (`SCENARIO_CONFIG`),
  the scenario effect deriving alerts and recommendations, and the
  interval-driven log simulator with its bounded buffer.

Effectful JavaScript is modelled by passing the environment explicitly: a
network call takes a `FetchOutcome` (what the transport and the JSON parse
did) and returns the list of requests it issued together with the value the
promise resolves to; randomness (`Math.random()`) is an explicit rational
draw in `[0, 1)`; the geolocation API is an explicit `GeoOutcome`.
-/

namespace Arogya

/-- Configured base URL; `import.meta.env?.VITE_API_URL || 'http://localhost:8000'`
with the environment variable unset (the default development endpoint). -/
def API_BASE_URL : String := "http://localhost:8000"

/-- Outcome of one `fetch(url)` call followed by `response.json()`:
either the promise rejects (transport failure / timeout), or a response
arrives with a status code and the result of parsing its body
(`none` = the body is not valid JSON, so `response.json()` rejects). -/
inductive FetchOutcome (α : Type) where
  | netError (msg : String)
  | response (status : Nat) (parsed : Option α)
deriving DecidableEq

/-- Errors an `api.ts` operation can propagate to its caller: the code only
ever surfaces a rejected `fetch` promise or a rejected `response.json()`
promise — it never inspects `response.ok` or `response.status`. -/
inductive ApiError where
  | networkError (msg : String)
  | parseError
deriving DecidableEq

/-- Value of `await fetch(url); return response.json()` — the shared tail of
every operation in `api.ts`. The status code is ignored: any parsable body
is returned as a success, whatever the status. -/
def respJson {α : Type} : FetchOutcome α → Except ApiError α
  | .netError m => .error (.networkError m)
  | .response _ none => .error .parseError
  | .response _ (some v) => .ok v

/-- One HTTP request as issued by the fetch layer. -/
structure Request where
  url : String
  method : String
  body : Option String
deriving DecidableEq

/-- JavaScript truthiness of an optional string parameter: `undefined` and
the empty string are falsy, every other string is truthy. -/
def jsTruthyStr : Option String → Bool
  | none => false
  | some s => !(s == "")

/-- Embedding of `fetchBeds(department?)`: the URL carries the
`?department=` query exactly when the parameter is truthy; the result is
the parsed JSON of whatever response arrives. Returns the requests issued
(always exactly one) paired with the resolved value. -/
def fetchBeds {α : Type} (department : Option String) (fo : FetchOutcome α) :
    List Request × Except ApiError α :=
  let url := if jsTruthyStr department then
      API_BASE_URL ++ "/api/v1/beds?department=" ++ department.getD ""
    else
      API_BASE_URL ++ "/api/v1/beds"
  ([⟨url, "GET", none⟩], respJson fo)

/-- Embedding of `fetchStaff(shift?)`. -/
def fetchStaff {α : Type} (shift : Option String) (fo : FetchOutcome α) :
    List Request × Except ApiError α :=
  let url := if jsTruthyStr shift then
      API_BASE_URL ++ "/api/v1/staff?shift=" ++ shift.getD ""
    else
      API_BASE_URL ++ "/api/v1/staff"
  ([⟨url, "GET", none⟩], respJson fo)

/-- Embedding of `fetchRecommendations(status?)`. -/
def fetchRecommendations {α : Type} (status : Option String) (fo : FetchOutcome α) :
    List Request × Except ApiError α :=
  let url := if jsTruthyStr status then
      API_BASE_URL ++ "/api/v1/recommendations?status=" ++ status.getD ""
    else
      API_BASE_URL ++ "/api/v1/recommendations"
  ([⟨url, "GET", none⟩], respJson fo)

/-- Embedding of `fetchLatestPrediction()`. -/
def fetchLatestPrediction {α : Type} (fo : FetchOutcome α) :
    List Request × Except ApiError α :=
  ([⟨API_BASE_URL ++ "/api/v1/predictions/latest", "GET", none⟩], respJson fo)

/-- Embedding of `approveRecommendation(recId)`: an unconditional POST to
`/api/v1/recommendations/{recId}/approve` whose parsed body is returned
whatever the status; the id is never checked locally. -/
def approveRecommendation {α : Type} (recId : String) (fo : FetchOutcome α) :
    List Request × Except ApiError α :=
  ([⟨API_BASE_URL ++ "/api/v1/recommendations/" ++ recId ++ "/approve",
     "POST", none⟩], respJson fo)

/-- Embedding of `rejectRecommendation(recId, reason)`: an unconditional
POST carrying `JSON.stringify(\x7b reason \x7d)` as its body. The reason is
never validated — an empty string is serialised and sent like any other. -/
def rejectRecommendation {α : Type} (recId reason : String) (fo : FetchOutcome α) :
    List Request × Except ApiError α :=
  ([⟨API_BASE_URL ++ "/api/v1/recommendations/" ++ recId ++ "/reject",
     "POST", some ("\x7b\"reason\":\"" ++ reason ++ "\"\x7d")⟩], respJson fo)

/-- Outcome of the browser geolocation lookup as `getCurrentLocation`
observes it: a position, a user denial (error callback), a missing
`navigator.geolocation` API, or the 5000 ms timeout (error callback). -/
inductive GeoOutcome where
  | success (lat lon : ℚ)
  | denied
  | unavailableApi
  | timeout
deriving DecidableEq

/-- Embedding of `getCurrentLocation()`: the returned promise always
resolves — with the coordinates on success and with `null` on every
failure path (missing API, denial, timeout); it never rejects. -/
def getCurrentLocation : GeoOutcome → Option (ℚ × ℚ)
  | .success lat lon => some (lat, lon)
  | .denied => none
  | .unavailableApi => none
  | .timeout => none

/-- Embedding of `fetchCurrentAQI()`: await the location lookup, append
`?lat=&lon=` only when it produced coordinates, then fetch and parse. -/
def fetchCurrentAQI {α : Type} (geo : GeoOutcome) (fo : FetchOutcome α) :
    List Request × Except ApiError α :=
  let base := API_BASE_URL ++ "/api/v1/environment/aqi"
  let url := match getCurrentLocation geo with
    | some (lat, lon) => base ++ "?lat=" ++ toString lat ++ "&lon=" ++ toString lon
    | none => base
  ([⟨url, "GET", none⟩], respJson fo)

/-- The four operating scenarios of `Dashboard.tsx`. -/
inductive Scenario where
  | Normal
  | Pollution
  | Festival
  | Outbreak
deriving DecidableEq

/-- Display name of a scenario, as interpolated into messages. -/
def scenarioName : Scenario → String
  | .Normal => "Normal"
  | .Pollution => "Pollution"
  | .Festival => "Festival"
  | .Outbreak => "Outbreak"

/-- Risk levels of `SCENARIO_CONFIG`. -/
inductive RiskLevel where
  | Low
  | Medium
  | High
  | Critical
deriving DecidableEq

/-- Bed counts inside a stats record. -/
structure BedStats where
  free : Nat
  total : Nat
deriving DecidableEq

/-- Staff counts inside a stats record. -/
structure StaffStats where
  active : Nat
  idle : Nat
deriving DecidableEq

/-- One row of `SCENARIO_CONFIG` (the spec's `StatsSnapshot`). -/
structure Stats where
  aqi : Nat
  risk : RiskLevel
  weather : String
  beds : BedStats
  oxygen : Nat
  staff : StaffStats
  ppe : Nat
deriving DecidableEq

/-- Embedding of the `SCENARIO_CONFIG` table of `Dashboard.tsx`. -/
def SCENARIO_CONFIG : Scenario → Stats
  | .Normal =>
      ⟨45, .Low, "Clear Sky", ⟨85, 200⟩, 98, ⟨45, 12⟩, 1200⟩
  | .Pollution =>
      ⟨412, .High, "Haze / Smog", ⟨25, 200⟩, 34, ⟨58, 2⟩, 950⟩
  | .Festival =>
      ⟨180, .Medium, "Clear Sky", ⟨40, 200⟩, 85, ⟨55, 5⟩, 1050⟩
  | .Outbreak =>
      ⟨90, .Critical, "Rainy", ⟨5, 200⟩, 60, ⟨68, 0⟩, 200⟩

/-- The four synthetic agents of the log feed. -/
inductive Agent where
  | Sentinel
  | Orchestrator
  | Logistics
  | Action
deriving DecidableEq

/-- One entry of the agent feed (the `Log` interface). -/
structure Log where
  id : Nat
  agent : Agent
  message : String
  time : String
  isImportant : Bool
deriving DecidableEq

/-- Alert severities (the `type` field of the `Alert` interface). -/
inductive AlertType where
  | warning
  | critical
  | info
deriving DecidableEq

/-- One alert (the `Alert` interface). -/
structure Alert where
  id : Nat
  title : String
  desc : String
  type : AlertType
  timestamp : String
deriving DecidableEq

/-- One recommendation (the `Recommendation` interface). Note the source
interface has no status field: the decisions panel counts every current
recommendation as a pending action. -/
structure Recommendation where
  id : Nat
  agent : String
  action : String
  reason : String
  impact : String
deriving DecidableEq

/-- Recommendations installed by the scenario effect of `Dashboard.tsx`
(`setRecommendations(...)` in the branch for each scenario). -/
def deriveRecommendations : Scenario → List Recommendation
  | .Pollution =>
      [⟨1, "Orchestrator", "Activate Code Grey",
        "AQI > 400 linked to 200% Asthma surge.", "Mobilize 15 Pulmonologists"⟩,
       ⟨2, "Logistics", "Auto-Order Oxygen",
        "Reserves projected to deplete in 8hrs.", "+50 Cylinders"⟩]
  | .Festival =>
      [⟨1, "Orchestrator", "Clear Trauma Bay",
        "High crowd density event nearby.", "+10 Emergency Beds"⟩]
  | .Outbreak =>
      [⟨1, "Sentinel", "Isolation Protocol",
        "Viral vector identified in triage.", "Lockdown Wing C"⟩,
       ⟨2, "Action", "Alert CDC/Local Auth",
        "Reportable threshold exceeded.", "Compliance"⟩]
  | .Normal =>
      [⟨1, "Logistics", "Staff Rotation",
        "Optimize shift handover.", "Reduce fatigue"⟩]

/-- Alerts installed by the scenario effect of `Dashboard.tsx`
(`setAlerts(...)` in the branch for each scenario). -/
def deriveAlerts : Scenario → List Alert
  | .Pollution =>
      [⟨1, "Severe Smog Alert", "Prepare for respiratory surge", .critical, "Now"⟩]
  | .Festival =>
      [⟨1, "Crowd Surge Warning", "Local density > 5/sqm", .warning, "Now"⟩]
  | .Outbreak =>
      [⟨1, "Bio-Hazard Detected", "Isolate Sector 4 immediately", .critical, "Now"⟩]
  | .Normal => []

/-- The dashboard state the claims concern: the active scenario together
with the three `useState` collections the effects write. -/
structure DashState where
  activeScenario : Scenario
  logs : List Log
  alerts : List Alert
  recommendations : List Recommendation
deriving DecidableEq

/-- Stats shown by the dashboard: `const stats = SCENARIO_CONFIG[activeScenario]`. -/
def statsOf (st : DashState) : Stats :=
  SCENARIO_CONFIG st.activeScenario

/-- The scenario effect (`useEffect` on `[activeScenario]`): wholesale
replacement of alerts and recommendations from the scenario. -/
def applyScenarioEffect (st : DashState) : DashState :=
  { st with
      alerts := deriveAlerts st.activeScenario,
      recommendations := deriveRecommendations st.activeScenario }

/-- Operator scenario selection (`setActiveScenario(s)`) followed by the
re-run of the scenario effect. -/
def setActiveScenario (s : Scenario) (st : DashState) : DashState :=
  applyScenarioEffect { st with activeScenario := s }

/-- The decisions panel's pending counter:
`{recommendations.length} Pending Actions`. -/
def pendingActionsCount (st : DashState) : Nat :=
  st.recommendations.length

/-- The log append of the interval tick:
`setLogs(prev => [...prev.slice(-49), newLog])`. JavaScript `slice(-49)`
keeps the last 49 entries (all of them when fewer), matching
`List.drop (prev.length - 49)` under truncated subtraction. -/
def appendLog (prev : List Log) (newLog : Log) : List Log :=
  prev.drop (prev.length - 49) ++ [newLog]

/-- Buffer after a sequence of ticks starting from the initial empty
`useState<Log[]>([])`, each tick appending its generated event. -/
def runTicks (evts : List Log) : List Log :=
  evts.foldl appendLog []

/-- Message text and importance flag generated by one tick of the log
simulator for a chosen agent, with the two random draws made explicit:
`aqiJitter` is `Math.floor(Math.random() * 10)` and `impRand` the
`Math.random()` value compared against `0.7`. -/
def genLogMsgImportant (scenario : Scenario) (agent : Agent)
    (aqiJitter : Nat) (impRand : ℚ) : String × Bool :=
  let stats := SCENARIO_CONFIG scenario
  let msg : String :=
    match agent with
    | .Sentinel => "AQI signal stable at " ++ toString (stats.aqi + aqiJitter) ++ "."
    | .Orchestrator => "Analyzing inflow patterns for " ++ scenarioName scenario ++ " protocols."
    | .Logistics => "Bed capacity check: " ++ toString stats.beds.free ++ " beds available."
    | .Action => "Routine check active. No critical anomalies."
  if scenario = .Normal then
    (msg, false)
  else
    let important := decide ((7 : ℚ) / 10 < impRand)
    match agent with
    | .Sentinel => ("CRITICAL: Detected rapid spike in respiratory cases in Ward B.", true)
    | .Logistics => ("WARNING: Oxygen pressure dropping in ICU 2.", true)
    | .Action => ("Drafting emergency staff reallocation order #9921.", true)
    | .Orchestrator => ("Re-calibrating surge prediction model. Confidence: 98%.", important)

/-- State of the log simulator: the pause flag and the buffer. -/
structure FeedState where
  isFeedPaused : Bool
  logs : List Log
deriving DecidableEq

/-- One clock advance by a tick interval: the effect schedules no interval
while `isFeedPaused` holds (`if (isFeedPaused) return;`), so a paused state
is unchanged; otherwise the tick appends exactly one generated event. -/
def tick (st : FeedState) (e : Log) : FeedState :=
  if st.isFeedPaused then st
  else { st with logs := appendLog st.logs e }

/-- Toggle of the pause flag (`setIsFeedPaused`). -/
def setPaused (b : Bool) (st : FeedState) : FeedState :=
  { st with isFeedPaused := b }

/-- Advance the clock through a sequence of tick intervals, the event each
tick would generate given explicitly. -/
def runFeed (st : FeedState) (evts : List Log) : FeedState :=
  evts.foldl tick st

/-- A concrete log event with a given id, used to instantiate tick
sequences on concrete inputs. -/
def mkLog (n : Nat) : Log :=
  ⟨n, .Sentinel, "tick", "00:00:00", false⟩

/-! ### Helper lemmas about the bounded log buffer -/

lemma appendLog_length (prev : List Log) (l : Log) :
    (appendLog prev l).length = min prev.length 49 + 1 := by
  simp [appendLog]
  omega

lemma appendLog_suffix (prev : List Log) (l : Log) :
    appendLog prev l <:+ prev ++ [l] :=
  ⟨prev.take (prev.length - 49), by
    rw [appendLog, ← List.append_assoc, List.take_append_drop]⟩

lemma runTicks_append (xs : List Log) (x : Log) :
    runTicks (xs ++ [x]) = appendLog (runTicks xs) x := by
  simp [runTicks]

/-- Closed form of the iterated append: the buffer holds exactly the last
50 generated events (all of them while fewer than 50 exist). -/
lemma runTicks_eq_drop (evts : List Log) :
    runTicks evts = evts.drop (evts.length - 50) := by
  induction evts using List.reverseRecOn with
  | nil => simp [runTicks]
  | append_singleton xs x ih =>
    rw [runTicks_append, ih, appendLog, List.length_drop, List.drop_drop]
    have h1 : xs.length - 50 + (xs.length - (xs.length - 50) - 49)
        = (xs ++ [x]).length - 50 := by
      simp
      omega
    rw [h1, List.drop_append_of_le_length (by simp)]

/-! ### Claim theorems -/

/-- C3: the derivation from the active Scenario is pure and deterministic —
selecting a scenario installs alerts and recommendations that depend only
on the scenario (identical whatever the prior state), the stats snapshot is
the table lookup for that scenario, and evaluating the derivation twice on
the same scenario yields structurally identical results. -/
theorem c3_scenario_derivation_pure (s : Scenario) (st st' : DashState) :
    (setActiveScenario s st).alerts = (setActiveScenario s st').alerts ∧
    (setActiveScenario s st).recommendations
      = (setActiveScenario s st').recommendations ∧
    statsOf (setActiveScenario s st) = SCENARIO_CONFIG s ∧
    deriveAlerts s = deriveAlerts s ∧
    deriveRecommendations s = deriveRecommendations s ∧
    SCENARIO_CONFIG s = SCENARIO_CONFIG s :=
  ⟨rfl, rfl, rfl, rfl, rfl, rfl⟩

/-- C4: after every tick-append the log buffer holds at most 50 entries;
eviction is FIFO (the surviving buffer is a suffix of the old buffer plus
the new event, i.e. only the oldest entries are removed); from the empty
buffer, a 51-tick run keeps exactly the last 50 events, so the first
generated event — unique among the 51 — is no longer in the buffer. -/
theorem c4_log_buffer_bounded_fifo (prev : List Log) (l : Log)
    (evts : List Log) (e0 : Log) (h51 : evts.length = 51)
    (hnd : evts.Nodup) (hh : evts.head? = some e0) :
    (appendLog prev l).length ≤ 50 ∧
    appendLog prev l <:+ prev ++ [l] ∧
    runTicks evts = evts.drop 1 ∧
    e0 ∉ runTicks evts := by
  have hdrop : runTicks evts = evts.drop 1 := by
    rw [runTicks_eq_drop, h51]
  refine ⟨?_, appendLog_suffix prev l, hdrop, ?_⟩
  · rw [appendLog_length]
    omega
  · rw [hdrop]
    cases evts with
    | nil => simp at hh
    | cons a t =>
      simp only [List.head?_cons, Option.some.injEq] at hh
      subst hh
      simp only [List.drop_one, List.tail_cons]
      exact (List.nodup_cons.mp hnd).1

/-- Witness for C4 at the concrete run of 51 distinct events. -/
theorem c4_log_buffer_bounded_fifo_witness :
    (appendLog [] (mkLog 51)).length ≤ 50 ∧
    appendLog [] (mkLog 51) <:+ [] ++ [mkLog 51] ∧
    runTicks ((List.range 51).map mkLog)
      = ((List.range 51).map mkLog).drop 1 ∧
    mkLog 0 ∉ runTicks ((List.range 51).map mkLog) :=
  c4_log_buffer_bounded_fifo [] (mkLog 51) ((List.range 51).map mkLog) (mkLog 0)
    (by simp)
    (List.Nodup.map (fun a b hab => by simpa [mkLog] using hab) (List.nodup_range 51))
    (by rw [List.range_succ_eq_map]; simp)

/-- C5: selecting Outbreak from Normal replaces the alerts with exactly the
single critical biohazard alert and the recommendations with exactly two
entries, both counted as pending by the decisions panel (the source's
Recommendation record carries no status field; every present entry is
displayed as a pending action). -/
theorem c5_normal_to_outbreak (st : DashState)
    (h : st.activeScenario = .Normal) :
    (setActiveScenario .Outbreak st).alerts
      = [⟨1, "Bio-Hazard Detected", "Isolate Sector 4 immediately",
          .critical, "Now"⟩] ∧
    (setActiveScenario .Outbreak st).recommendations.length = 2 ∧
    pendingActionsCount (setActiveScenario .Outbreak st) = 2 :=
  ⟨rfl, rfl, rfl⟩

/-- Witness for C5 at the initial dashboard state. -/
theorem c5_normal_to_outbreak_witness :
    (setActiveScenario .Outbreak ⟨.Normal, [], [], []⟩).alerts
      = [⟨1, "Bio-Hazard Detected", "Isolate Sector 4 immediately",
          .critical, "Now"⟩] ∧
    (setActiveScenario .Outbreak ⟨.Normal, [], [], []⟩).recommendations.length = 2 ∧
    pendingActionsCount (setActiveScenario .Outbreak ⟨.Normal, [], [], []⟩) = 2 :=
  c5_normal_to_outbreak ⟨.Normal, [], [], []⟩ rfl

/-- C6: under Normal every agent's generated event has importance false;
under any non-Normal scenario Sentinel, Logistics and Action are hard-forced
to importance true with the ward-anomaly, oxygen-pressure and
reallocation-order critical texts, while the remaining agent's importance
equals the baseline draw exceeding 0.7 — the top three tenths of the unit
interval the draw ranges over, i.e. the ~30% baseline elevation. -/
theorem c6_log_importance (s : Scenario) (agent : Agent) (aqiJitter : Nat)
    (impRand q : ℚ) (hs : s ≠ .Normal) :
    (genLogMsgImportant .Normal agent aqiJitter impRand).2 = false ∧
    genLogMsgImportant s .Sentinel aqiJitter impRand
      = ("CRITICAL: Detected rapid spike in respiratory cases in Ward B.", true) ∧
    genLogMsgImportant s .Logistics aqiJitter impRand
      = ("WARNING: Oxygen pressure dropping in ICU 2.", true) ∧
    genLogMsgImportant s .Action aqiJitter impRand
      = ("Drafting emergency staff reallocation order #9921.", true) ∧
    ((genLogMsgImportant s .Orchestrator aqiJitter q).2 = true
      ↔ (7 : ℚ) / 10 < q) := by
  refine ⟨by cases agent <;> rfl, ?_, ?_, ?_, ?_⟩ <;>
    cases s <;>
      first
        | exact absurd rfl hs
        | simp [genLogMsgImportant]

/-- Witness for C6 under the Pollution scenario with concrete draws. -/
theorem c6_log_importance_witness :
    (genLogMsgImportant .Normal .Orchestrator 3 (1 / 2)).2 = false ∧
    genLogMsgImportant .Pollution .Sentinel 3 (1 / 2)
      = ("CRITICAL: Detected rapid spike in respiratory cases in Ward B.", true) ∧
    genLogMsgImportant .Pollution .Logistics 3 (1 / 2)
      = ("WARNING: Oxygen pressure dropping in ICU 2.", true) ∧
    genLogMsgImportant .Pollution .Action 3 (1 / 2)
      = ("Drafting emergency staff reallocation order #9921.", true) ∧
    ((genLogMsgImportant .Pollution .Orchestrator 3 (4 / 5)).2 = true
      ↔ (7 : ℚ) / 10 < 4 / 5) :=
  c6_log_importance .Pollution .Orchestrator 3 (1 / 2) (4 / 5) (by decide)

/-- C7: while the feed is paused a clock advance fires no tick — the state,
in particular the buffer, is unchanged for any number of intervals (no
events are added, nothing is cleared); after resuming, every tick interval
appends exactly its one generated event, with no replay of the events the
paused intervals would have generated. -/
theorem c7_pause_resume (st : FeedState) (e : Log)
    (missed resumed : List Log) (hp : st.isFeedPaused = true) :
    tick st e = st ∧
    runFeed st missed = st ∧
    runFeed (setPaused false st) resumed
      = ⟨false, resumed.foldl appendLog st.logs⟩ := by
  have htick : ∀ x, tick st x = st := by
    intro x
    simp [tick, hp]
  refine ⟨htick e, ?_, ?_⟩
  · induction missed with
    | nil => rfl
    | cons m ms ih =>
      show List.foldl tick st (m :: ms) = st
      rw [List.foldl_cons, htick m]
      exact ih
  · have key : ∀ (r logs : List Log),
        runFeed ⟨false, logs⟩ r = ⟨false, r.foldl appendLog logs⟩ := by
      intro r
      induction r with
      | nil => intro logs; rfl
      | cons x xs ih =>
        intro logs
        show List.foldl tick ⟨false, logs⟩ (x :: xs) = _
        rw [List.foldl_cons]
        have hx : tick ⟨false, logs⟩ x = ⟨false, appendLog logs x⟩ := by
          simp [tick]
        rw [hx]
        exact ih (appendLog logs x)
    exact key resumed st.logs

/-- Witness for C7: a paused feed holding one event, two missed intervals,
one interval after resuming. -/
theorem c7_pause_resume_witness :
    tick ⟨true, [mkLog 0]⟩ (mkLog 9) = ⟨true, [mkLog 0]⟩ ∧
    runFeed ⟨true, [mkLog 0]⟩ [mkLog 1, mkLog 2] = ⟨true, [mkLog 0]⟩ ∧
    runFeed (setPaused false ⟨true, [mkLog 0]⟩) [mkLog 3]
      = ⟨false, [mkLog 3].foldl appendLog [mkLog 0]⟩ :=
  c7_pause_resume ⟨true, [mkLog 0]⟩ (mkLog 9) [mkLog 1, mkLog 2] [mkLog 3] rfl

/-- C1 (counterexample): rejecting with an empty reason does NOT fail
before the network call — the fetch layer observes one call, not zero, and
the operation resolves with the parsed response instead of a validation
error. -/
theorem c1_counterexample :
    (rejectRecommendation "rec-1" ""
        (FetchOutcome.response 200 (some "accepted"))).1.length ≠ 0 ∧
    (rejectRecommendation "rec-1" ""
        (FetchOutcome.response 200 (some "accepted"))).2
      = Except.ok "accepted" :=
  ⟨by decide, rfl⟩

/-- C1 (amended): `rejectRecommendation` performs no validation of the
reason — for every reason string, the empty string included, it issues
exactly one POST whose JSON body carries that reason, and returns the
parsed response; no `ValidationError` path exists. -/
theorem c1_reject_no_validation {α : Type} (recId reason : String)
    (fo : FetchOutcome α) :
    (rejectRecommendation recId reason fo).1.length = 1 ∧
    (rejectRecommendation recId reason fo).1
      = [⟨API_BASE_URL ++ "/api/v1/recommendations/" ++ recId ++ "/reject",
          "POST", some ("\x7b\"reason\":\"" ++ reason ++ "\"\x7d")⟩] ∧
    (rejectRecommendation recId reason fo).2 = respJson fo :=
  ⟨rfl, rfl, rfl⟩

/-- C2 (counterexample): a non-2xx response does NOT fail with a service
error — `fetchBeds` under a 500 response with a parsable body resolves
successfully with that body, because `response.ok` is never checked. -/
theorem c2_counterexample :
    (fetchBeds none (FetchOutcome.response 500 (some "error-body"))).2
      = Except.ok "error-body" :=
  rfl

/-- C2 (amended): every operation's result is exactly the outcome of
`response.json()` on whatever arrives: a transport failure surfaces as a
network error, an unparsable body as a parse error, and any parsable body —
whatever the status code, non-2xx included — is returned as a success.
There is no `ServiceError`: the status is never inspected. -/
theorem c2_result_ignores_status {α : Type} (department : Option String)
    (fo : FetchOutcome α) (status : Nat) (v : α) (m : String) :
    (fetchBeds department fo).2 = respJson fo ∧
    (fetchLatestPrediction fo).2 = respJson fo ∧
    respJson (FetchOutcome.response status (some v)) = Except.ok v ∧
    respJson (FetchOutcome.netError m : FetchOutcome α)
      = Except.error (ApiError.networkError m) ∧
    respJson (FetchOutcome.response status (none : Option α))
      = Except.error ApiError.parseError :=
  ⟨rfl, rfl, rfl, rfl, rfl⟩

/-- C8 (counterexample): approving a non-existent id does NOT fail with
`NotFound` — under a 404 response with a parsable body the call resolves
successfully with that body; the id is never checked locally and the status
never inspected. -/
theorem c8_counterexample :
    (approveRecommendation "no-such-id"
        (FetchOutcome.response 404 (some "not-found-body"))).2
      = Except.ok "not-found-body" ∧
    (approveRecommendation "no-such-id"
        (FetchOutcome.response 404 (some "not-found-body"))).1.length = 1 :=
  ⟨rfl, rfl⟩

/-- C8 (amended): `approveRecommendation` is unconditional — for every id,
pending or not, it issues exactly one POST to the approve endpoint and
returns the parsed response; no `NotFound`/`InvalidState` detection exists,
and the function touches no local state (it only issues the request). -/
theorem c8_approve_unconditional {α : Type} (recId : String)
    (fo : FetchOutcome α) :
    (approveRecommendation recId fo).1
      = [⟨API_BASE_URL ++ "/api/v1/recommendations/" ++ recId ++ "/approve",
          "POST", none⟩] ∧
    (approveRecommendation recId fo).2 = respJson fo :=
  ⟨rfl, rfl⟩

/-- C9: whatever the geolocation lookup does — position, denial, missing
API, or timeout — the AQI fetch is issued (exactly one request); on any
lookup failure the URL is the bare endpoint without coordinate parameters;
and the result depends only on the fetch outcome, never on the lookup, so a
lookup failure is never surfaced to the caller. -/
theorem c9_aqi_best_effort {α : Type} (geo : GeoOutcome)
    (fo : FetchOutcome α) :
    (fetchCurrentAQI geo fo).1.length = 1 ∧
    (fetchCurrentAQI geo fo).2 = respJson fo ∧
    (fetchCurrentAQI GeoOutcome.denied fo).1
      = [⟨API_BASE_URL ++ "/api/v1/environment/aqi", "GET", none⟩] ∧
    (fetchCurrentAQI GeoOutcome.unavailableApi fo).1
      = (fetchCurrentAQI GeoOutcome.denied fo).1 ∧
    (fetchCurrentAQI GeoOutcome.timeout fo).1
      = (fetchCurrentAQI GeoOutcome.denied fo).1 :=
  ⟨rfl, rfl, rfl, rfl, rfl⟩

/-- C10: for `fetchBeds`, `fetchStaff` and `fetchRecommendations` an empty
string filter is falsy in JavaScript, so it behaves exactly like the
omitted parameter: the same request is issued, its URL the bare resource
path with no query string. -/
theorem c10_empty_filter_unfiltered {α : Type} (fo : FetchOutcome α) :
    fetchBeds (some "") fo = fetchBeds none fo ∧
    fetchStaff (some "") fo = fetchStaff none fo ∧
    fetchRecommendations (some "") fo = fetchRecommendations none fo ∧
    (fetchBeds (some "") fo).1
      = [⟨API_BASE_URL ++ "/api/v1/beds", "GET", none⟩] ∧
    (fetchStaff (some "") fo).1
      = [⟨API_BASE_URL ++ "/api/v1/staff", "GET", none⟩] ∧
    (fetchRecommendations (some "") fo).1
      = [⟨API_BASE_URL ++ "/api/v1/recommendations", "GET", none⟩] ∧
    '?' ∉ (API_BASE_URL ++ "/api/v1/beds").toList ∧
    '?' ∉ (API_BASE_URL ++ "/api/v1/staff").toList ∧
    '?' ∉ (API_BASE_URL ++ "/api/v1/recommendations").toList :=
  ⟨rfl, rfl, rfl, rfl, rfl, rfl, by decide, by decide, by decide⟩

end Arogya
